import Mathlib

/-!
Shallow embedding of the URDF scene compiler in `src/main.rs` (robot simulator).

The embedding models the startup systems `setup_field`, `setup_links`, `setup_joints`
and `add_link_visuals`:
* scalars (`f32`) are modelled as real numbers,
* entity spawning is modelled as explicit record construction,
* Rust panics (`assert!`, `todo!()`, `Option::unwrap` on `None`, `HashMap` indexing
  with a missing key) are modelled as `Except.error` values of dedicated panic types,
  kept distinct from any recoverable error value a caller could observe,
* the eigendecomposition performed by `nalgebra::SymmetricEigen::new` is an external
  library call; it is passed in as an explicit function argument (a fault-injection
  point, as the spec's test list suggests), so that the surrounding code of this
  repository is modelled exactly.

Rendering-only payloads (meshes, materials, textures, light) carry no data relevant
to the specification's claims and are not modelled, as the spec itself excludes them.
-/

open Classical

noncomputable section

/-- A 3-vector of scalars (`f32` values modelled as `ℝ`), as used for `Vec3`. -/
structure V3 where
  x : ℝ
  y : ℝ
  z : ℝ

def V3.zero : V3 := ⟨0, 0, 0⟩

def V3.sub (a b : V3) : V3 := ⟨a.x - b.x, a.y - b.y, a.z - b.z⟩

def V3.one : V3 := ⟨1, 1, 1⟩

/-- A 3×3 matrix in row-major field order, mirroring `nalgebra::Matrix3::new`. -/
structure M3 where
  m00 : ℝ
  m01 : ℝ
  m02 : ℝ
  m10 : ℝ
  m11 : ℝ
  m12 : ℝ
  m20 : ℝ
  m21 : ℝ
  m22 : ℝ

/-- `Matrix3::zeros()`. -/
def M3.zeroMat : M3 := ⟨0, 0, 0, 0, 0, 0, 0, 0, 0⟩

/-- The identity matrix. -/
def M3.idMat : M3 := ⟨1, 0, 0, 0, 1, 0, 0, 0, 1⟩

def M3.transpose (m : M3) : M3 :=
  ⟨m.m00, m.m10, m.m20, m.m01, m.m11, m.m21, m.m02, m.m12, m.m22⟩

def M3.mul (a b : M3) : M3 :=
  ⟨a.m00 * b.m00 + a.m01 * b.m10 + a.m02 * b.m20,
   a.m00 * b.m01 + a.m01 * b.m11 + a.m02 * b.m21,
   a.m00 * b.m02 + a.m01 * b.m12 + a.m02 * b.m22,
   a.m10 * b.m00 + a.m11 * b.m10 + a.m12 * b.m20,
   a.m10 * b.m01 + a.m11 * b.m11 + a.m12 * b.m21,
   a.m10 * b.m02 + a.m11 * b.m12 + a.m12 * b.m22,
   a.m20 * b.m00 + a.m21 * b.m10 + a.m22 * b.m20,
   a.m20 * b.m01 + a.m21 * b.m11 + a.m22 * b.m21,
   a.m20 * b.m02 + a.m21 * b.m12 + a.m22 * b.m22⟩

/-- Entrywise closeness of two matrices, the absolute-epsilon branch of the
`approx` crate's `relative_eq!` used by `nalgebra`'s `is_identity`. -/
def entriesWithin (a b : M3) (eps : ℝ) : Prop :=
  |a.m00 - b.m00| ≤ eps ∧ |a.m01 - b.m01| ≤ eps ∧ |a.m02 - b.m02| ≤ eps ∧
  |a.m10 - b.m10| ≤ eps ∧ |a.m11 - b.m11| ≤ eps ∧ |a.m12 - b.m12| ≤ eps ∧
  |a.m20 - b.m20| ≤ eps ∧ |a.m21 - b.m21| ≤ eps ∧ |a.m22 - b.m22| ≤ eps

/-- `nalgebra` `Matrix::is_orthogonal(eps)`: `self.ad_mul(self)` (that is, `mᵀ * m`)
is the identity matrix within `eps`. -/
def isOrthogonal (m : M3) (eps : ℝ) : Prop :=
  entriesWithin (M3.mul (M3.transpose m) m) M3.idMat eps

/-- A quaternion with scalar part `w` and vector part `(x, y, z)`. -/
structure Quat where
  w : ℝ
  x : ℝ
  y : ℝ
  z : ℝ

/-- The Hamilton product, as implemented by both `glam` and `nalgebra`. -/
def quatMul (a b : Quat) : Quat :=
  ⟨a.w * b.w - a.x * b.x - a.y * b.y - a.z * b.z,
   a.w * b.x + a.x * b.w + a.y * b.z - a.z * b.y,
   a.w * b.y - a.x * b.z + a.y * b.w + a.z * b.x,
   a.w * b.z + a.x * b.y - a.y * b.x + a.z * b.w⟩

def Quat.conj (q : Quat) : Quat := ⟨q.w, -q.x, -q.y, -q.z⟩

/-- Rotation of a vector by a unit quaternion, `q · (0, v) · q⁻¹`. -/
def rotateVec (q : Quat) (v : V3) : V3 :=
  let p : Quat := ⟨0, v.x, v.y, v.z⟩
  let r := quatMul (quatMul q p) (Quat.conj q)
  ⟨r.x, r.y, r.z⟩

/-- `glam` `Quat::from_rotation_x(a)`. -/
def rotX (a : ℝ) : Quat := ⟨Real.cos (a / 2), Real.sin (a / 2), 0, 0⟩

/-- `glam` `Quat::from_rotation_y(a)`. -/
def rotY (a : ℝ) : Quat := ⟨Real.cos (a / 2), 0, Real.sin (a / 2), 0⟩

/-- `glam` `Quat::from_rotation_z(a)`. -/
def rotZ (a : ℝ) : Quat := ⟨Real.cos (a / 2), 0, 0, Real.sin (a / 2)⟩

/-- `glam` `Quat::from_euler(EulerRot::ZYX, a, b, c)`: the intrinsic composition
rotate-about-z by `a`, then about y by `b`, then about x by `c`. -/
def fromEulerZYX (a b c : ℝ) : Quat := quatMul (rotZ a) (quatMul (rotY b) (rotX c))

/-- `glam` `Quat::from_axis_angle(axis, angle)`. -/
def fromAxisAngle (axis : V3) (angle : ℝ) : Quat :=
  ⟨Real.cos (angle / 2), axis.x * Real.sin (angle / 2), axis.y * Real.sin (angle / 2),
   axis.z * Real.sin (angle / 2)⟩

/-- `nalgebra` `UnitQuaternion::from_basis_unchecked` = `from_rotation_matrix` applied
to the matrix whose columns are the three basis vectors (Shepperd's method). -/
def fromBasisUnchecked (m : M3) : Quat :=
  let tr := m.m00 + m.m11 + m.m22
  if 0 < tr then
    let denom := Real.sqrt (tr + 1) * 2
    ⟨denom / 4, (m.m21 - m.m12) / denom, (m.m02 - m.m20) / denom, (m.m10 - m.m01) / denom⟩
  else if m.m11 < m.m00 ∧ m.m22 < m.m00 then
    let denom := Real.sqrt (1 + m.m00 - m.m11 - m.m22) * 2
    ⟨(m.m21 - m.m12) / denom, denom / 4, (m.m01 + m.m10) / denom, (m.m02 + m.m20) / denom⟩
  else if m.m22 < m.m11 then
    let denom := Real.sqrt (1 + m.m11 - m.m00 - m.m22) * 2
    ⟨(m.m02 - m.m20) / denom, (m.m01 + m.m10) / denom, denom / 4, (m.m12 + m.m21) / denom⟩
  else
    let denom := Real.sqrt (1 + m.m22 - m.m00 - m.m11) * 2
    ⟨(m.m10 - m.m01) / denom, (m.m02 + m.m20) / denom, (m.m12 + m.m21) / denom, denom / 4⟩

/-- `nalgebra` `UnitQuaternion::axis`: `Unit::try_new(v, 0)` on the sign-normalised
vector part; `none` exactly when the vector norm is not positive (zero rotation). -/
def axisOf (q : Quat) : Option V3 :=
  let v : V3 := if 0 ≤ q.w then ⟨q.x, q.y, q.z⟩ else ⟨-q.x, -q.y, -q.z⟩
  let n := Real.sqrt (v.x ^ 2 + v.y ^ 2 + v.z ^ 2)
  if n ≤ 0 then none else some ⟨v.x / n, v.y / n, v.z / n⟩

/-- `nalgebra` `UnitQuaternion::angle`: `2 · acos |w|`. -/
def angleOf (q : Quat) : ℝ := Real.arccos |q.w| * 2

/-- The `<inertial>` record of a URDF link: mass, origin (position + roll-pitch-yaw)
and the six independent entries of the symmetric inertia tensor. -/
structure Inertial where
  mass : ℝ
  originXyz : V3
  originRpy : V3
  ixx : ℝ
  ixy : ℝ
  ixz : ℝ
  iyy : ℝ
  iyz : ℝ
  izz : ℝ

/-- `Matrix3::new(ixx, ixy, ixz, ixy, iyy, iyz, ixz, iyz, izz)` from `setup_links`. -/
def inertiaMatrix (i : Inertial) : M3 :=
  ⟨i.ixx, i.ixy, i.ixz, i.ixy, i.iyy, i.iyz, i.ixz, i.iyz, i.izz⟩

/-- The result of a symmetric eigendecomposition (`nalgebra::SymmetricEigen`). -/
structure Evd where
  eigenvalues : V3
  eigenvectors : M3

/-- `bevy_rapier`'s `MassProperties` fields set by `setup_links`. -/
structure MassProps where
  localCenterOfMass : V3
  mass : ℝ
  principalInertiaLocalFrame : Quat
  principalInertia : V3

/-- The ways `setup_links` can panic (abort the process). These are process aborts,
not error values: the function has no error return type in the source. -/
inductive LinkPanic where
  | meshTodo
  | notOrthogonal
  | noAxisUnwrap

/-- The assertion tolerance `0.00001` in `setup_links`. -/
def orthoTol : ℝ := 1 / 100000

/-- The mass-properties (inertia diagonalization) computation of `setup_links`
(`main.rs` lines 331-364), with the external `SymmetricEigen::new` call passed in as
`eigen`. `Except.error` models a panic; `Except.ok none` models `None` (zero tensor). -/
def massPropertiesOf (inertial : Inertial) (eigen : M3 → Evd) :
    Except LinkPanic (Option MassProps) :=
  let centerOfMass := inertial.originXyz
  let m := inertiaMatrix inertial
  if m = M3.zeroMat then
    .ok none
  else
    let evd := eigen m
    let principalVector := evd.eigenvalues
    if isOrthogonal evd.eigenvectors orthoTol then
      let quat := fromBasisUnchecked evd.eigenvectors
      match axisOf quat with
      | none => .error .noAxisUnwrap
      | some axis =>
        let rotation := angleOf quat
        let quat2 := fromAxisAngle axis rotation
        .ok (some ⟨centerOfMass, inertial.mass, quat2, principalVector⟩)
    else
      .error .notOrthogonal

/-- URDF geometry primitives (`urdf_rs::Geometry`). -/
inductive Geometry where
  | box (size : V3)
  | cylinder (radius length : ℝ)
  | sphere (radius : ℝ)
  | capsule (radius length : ℝ)
  | mesh (filename : String) (scale : Option V3)

/-- A rapier collider shape as constructed by `setup_links` / `setup_field`. -/
inductive Shape where
  | cuboid (hx hy hz : ℝ)
  | cylinder (halfHeight radius : ℝ)
  | ball (radius : ℝ)
  | capsuleZ (halfHeight radius : ℝ)

/-- A `<collision>` or `<visual>` entry: a geometry at an origin. -/
structure GeomEntry where
  geometry : Geometry
  originXyz : V3
  originRpy : V3

/-- A URDF link description: name, inertial record, collision and visual entries. -/
structure LinkDesc where
  name : String
  inertial : Inertial
  collision : List GeomEntry
  visual : List GeomEntry

inductive JointType where
  | revolute
  | continuous
  | prismatic
  | fixed
  | floating
  | planar
  | spherical
deriving DecidableEq

structure JointDesc where
  name : String
  jointType : JointType
  parentLink : String
  childLink : String
  originXyz : V3
  originRpy : V3
  axisXyz : V3

/-- Rotation resolved from a collision origin (`setup_links` lines 320-326):
`Quat::from_euler(EulerRot::ZYX, rpy[2], rpy[1], rpy[0])`. -/
def collisionOriginRotation (rpy : V3) : Quat := fromEulerZYX rpy.z rpy.y rpy.x

/-- Rotation resolved from a joint origin (`setup_joints` lines 238-244). -/
def jointOriginRotation (rpy : V3) : Quat := fromEulerZYX rpy.z rpy.y rpy.x

/-- Rotation resolved from a visual origin (`add_link_visuals` lines 190-199). -/
def visualOriginRotation (rpy : V3) : Quat := fromEulerZYX rpy.z rpy.y rpy.x

/-- The collider match of `setup_links` lines 299-316; the `Mesh` arm is `todo!()`. -/
def compileGeometry (g : Geometry) : Except LinkPanic Shape :=
  match g with
  | .box size => .ok (.cuboid (size.x / 2) (size.y / 2) (size.z / 2))
  | .cylinder radius length => .ok (.cylinder (length / 2) radius)
  | .sphere radius => .ok (.ball radius)
  | .capsule radius length => .ok (.capsuleZ (length / 2) radius)
  | .mesh _ _ => .error .meshTodo

/-- One compiled sub-shape of the compound collider: (position, rotation, collider). -/
def compileCollisionEntry (c : GeomEntry) : Except LinkPanic (V3 × Quat × Shape) := do
  let collider ← compileGeometry c.geometry
  pure (c.originXyz, collisionOriginRotation c.originRpy, collider)

inductive RigidBodyKind where
  | fixedBody
  | dynamicBody
deriving DecidableEq

/-- `bevy_rapier` `ColliderMassProperties`: a plain mass or full mass properties. -/
inductive ColliderMassProps where
  | plainMass (m : ℝ)
  | fullProps (mp : MassProps)

/-- The components `setup_links` inserts on a spawned link entity. -/
structure LinkEntity where
  name : String
  rigidBody : Option RigidBodyKind
  colliderMassProps : Option ColliderMassProps
  collider : Option (List (V3 × Quat × Shape))
  collisionGroups : Option (Nat × Nat)

/-- `Group::ALL` as a 32-bit mask. -/
def groupAll : Nat := 4294967295

/-- Entity construction of `setup_links` lines 366-384: spawn, then conditional
inserts; a second insert of the same component type overwrites the first, so full
mass properties replace the plain mass when both are inserted. -/
def buildLinkEntity (l : LinkDesc) (shapes : List (V3 × Quat × Shape))
    (massProperties : Option MassProps) : LinkEntity :=
  let e0 : LinkEntity := ⟨l.name, none, none, none, none⟩
  let e1 := if 0 < l.inertial.mass then
      { e0 with rigidBody := some .fixedBody,
                colliderMassProps := some (.plainMass l.inertial.mass) }
    else e0
  let e2 := match massProperties with
    | some mp => { e1 with colliderMassProps := some (.fullProps mp) }
    | none => e1
  if shapes ≠ [] then
    { e2 with collider := some shapes, collisionGroups := some (2, 1 ||| 4) }
  else e2

/-- Per-link body of the `setup_links` loop (`main.rs` lines 292-384): collision
shapes are compiled first, then the inertia is diagonalized, then the entity is
spawned. A panic in either stage aborts. -/
def processLink (l : LinkDesc) (eigen : M3 → Evd) : Except LinkPanic LinkEntity := do
  let shapes ← l.collision.mapM compileCollisionEntry
  let massProperties ← massPropertiesOf l.inertial eigen
  pure (buildLinkEntity l shapes massProperties)

/-- The whole `setup_links` loop; the first panic aborts the system. -/
def setupLinks (links : List LinkDesc) (eigen : M3 → Evd) :
    Except LinkPanic (List LinkEntity) :=
  links.mapM (fun l => processLink l eigen)

/-- Panics that `setup_joints` can raise: `HashMap` indexing with an unknown link
name (`link_to_entity[&name]`), and the `todo!()` arms for `Floating`/`Planar`. -/
inductive JointPanic where
  | indexMissingLink (link : String)
  | todoJointType (joint : String)
deriving DecidableEq

/-- The joint data built by the rapier joint builders in `setup_joints`.
`local_anchor2` and `local_basis2` keep their builder defaults (zero / identity). -/
inductive ConstraintData where
  | revoluteC (axis : V3) (localAnchor1 : V3) (localAnchor2 : V3)
  | prismaticC (axis : V3) (localAnchor1 : V3) (localAnchor2 : V3)
  | fixedC (localAnchor1 : V3) (localBasis1 : Quat) (localAnchor2 : V3)
  | sphericalC (localAnchor1 : V3) (localAnchor2 : V3)

/-- `ImpulseJoint::new(parent_id, builder)` inserted on the child entity: `body1` is
the parent, so `local_anchor1`/`local_basis1` live in the parent's local frame. -/
structure ImpulseJointModel where
  body1 : Nat
  data : ConstraintData

/-- What one iteration of the `setup_joints` loop does: parent-child edge, the
transform inserted on the child, and the optional impulse joint. -/
structure JointWiring where
  parent : Nat
  child : Nat
  childTranslation : V3
  childRotation : Quat
  impulse : Option ImpulseJointModel

/-- The `link_to_entity` map of `setup_joints` (and `add_link_visuals`): successive
`HashMap::insert`s, so a later entry with the same name overwrites an earlier one. -/
def linkToEntity (ents : List (Nat × String)) : String → Option Nat :=
  ents.foldl (fun acc e => fun s => if s = e.2 then some e.1 else acc s) (fun _ => none)

/-- One iteration of the `setup_joints` loop (`main.rs` lines 227-284). -/
def wireJoint (lookup : String → Option Nat) (j : JointDesc) :
    Except JointPanic JointWiring :=
  match lookup j.parentLink with
  | none => .error (.indexMissingLink j.parentLink)
  | some parentId =>
    match lookup j.childLink with
    | none => .error (.indexMissingLink j.childLink)
    | some childId =>
      let translation := j.originXyz
      let rotation := jointOriginRotation j.originRpy
      let axis := j.axisXyz
      match j.jointType with
      | .revolute =>
        .ok ⟨parentId, childId, translation, rotation,
          some ⟨parentId, .revoluteC axis translation V3.zero⟩⟩
      | .continuous => .ok ⟨parentId, childId, translation, rotation, none⟩
      | .prismatic =>
        .ok ⟨parentId, childId, translation, rotation,
          some ⟨parentId, .prismaticC axis translation V3.zero⟩⟩
      | .fixed =>
        .ok ⟨parentId, childId, translation, rotation,
          some ⟨parentId, .fixedC translation rotation V3.zero⟩⟩
      | .floating => .error (.todoJointType j.name)
      | .planar => .error (.todoJointType j.name)
      | .spherical =>
        .ok ⟨parentId, childId, translation, rotation,
          some ⟨parentId, .sphericalC translation V3.zero⟩⟩

/-- The `setup_joints` system: builds `link_to_entity` from the spawned link
entities (in spawn order) and wires each joint in order; a panic aborts. -/
def setupJoints (ents : List (Nat × String)) (joints : List JointDesc) :
    Except JointPanic (List JointWiring) :=
  joints.mapM (wireJoint (linkToEntity ents))

/-- `scale` handling of `add_link_visuals`: the mesh scale, or `Vec3::ONE`. -/
def visualScale (g : Geometry) : V3 :=
  match g with
  | .mesh _ (some s) => s
  | _ => V3.one

/-- The entity spawned for one `<visual>` entry by `add_link_visuals`
(`main.rs` lines 202-210): a render bundle placed at the resolved origin, plus
`RigidBody::Dynamic`. The entity carries no `Name` component. -/
structure VisualEntity where
  translation : V3
  rotation : Quat
  scale : V3
  rigidBody : RigidBodyKind

def spawnVisual (v : GeomEntry) : VisualEntity :=
  ⟨v.originXyz, visualOriginRotation v.originRpy, visualScale v.geometry,
   .dynamicBody⟩

/-- All visual entities spawned by `add_link_visuals` over a link list (the
`is_empty` guard in the source is redundant with iterating the visual list). -/
def visualSpawns (links : List LinkDesc) : List VisualEntity :=
  (links.map (fun l => l.visual.map spawnVisual)).flatten

/-- Field dimensions resource (defaults in `field_dimensions.rs`). -/
structure FieldDimensions where
  ballRadius : ℝ
  fieldLength : ℝ
  fieldWidth : ℝ
  borderStripWidth : ℝ

/-- The named physics entities spawned by `setup_field`; the directional light has
no name, rigid body or collider and is omitted. -/
structure FieldEntity where
  name : String
  rigidBody : Option RigidBodyKind
  collider : Option Shape
  collisionGroups : Option (Nat × Nat)

/-- The ground entity of `setup_field` (`main.rs` lines 69-89). -/
def fieldEntity (fd : FieldDimensions) : FieldEntity :=
  let groundX := fd.fieldLength + fd.borderStripWidth * 2
  let groundY := fd.fieldWidth + fd.borderStripWidth * 2
  ⟨"field", some .fixedBody, some (.cuboid (groundX / 2) (groundY / 2) (1 / 100)),
   some (1, groupAll)⟩

/-- The ball entity of `setup_field` (`main.rs` lines 91-113). -/
def ballEntity (fd : FieldDimensions) : FieldEntity :=
  ⟨"ball", some .dynamicBody, some (.ball fd.ballRadius), some (4, groupAll)⟩

/-- A point expressed in the local frame given by (translation, rotation):
the inverse rigid transform, `q⁻¹ · (p − t)`. -/
def pointInFrame (t : V3) (q : Quat) (p : V3) : V3 :=
  rotateVec (Quat.conj q) (V3.sub p t)

/-- Follows the spec's words, for comparison with the code: "Anchor is always
expressed as the resolved joint origin in the child link's local frame". In URDF the
child link's frame is the joint frame itself (the joint origin is the transform from
parent frame to child frame), so this is the joint origin expressed in the frame it
itself defines. -/
def specAnchorInChildFrame (j : JointDesc) : V3 :=
  pointInFrame j.originXyz (jointOriginRotation j.originRpy) j.originXyz

/-- The eigendecomposition `nalgebra::SymmetricEigen::new` returns for a matrix that
is already diagonal: the Householder tridiagonalization applies no reflection (every
subdiagonal column is zero) and the QR iteration deflates immediately (every
off-diagonal entry is exactly zero), so the eigenvectors are exactly the identity
matrix and the eigenvalues are the diagonal entries in their original order. Used as
the injected external decomposition for diagonal test tensors. -/
def eigenOfDiagonal (m : M3) : Evd := ⟨⟨m.m00, m.m11, m.m22⟩, M3.idMat⟩

/-- A placeholder injected decomposition for links whose tensor is zero (the
decomposition is then never computed by the code). -/
def eigenTrivial : M3 → Evd := fun _ => ⟨V3.zero, M3.idMat⟩

/-- A link with no inertia, no collision and no visual entries. -/
def minimalLink (n : String) : LinkDesc :=
  ⟨n, ⟨0, V3.zero, V3.zero, 0, 0, 0, 0, 0, 0⟩, [], []⟩

/-- A link whose collision list contains a mesh geometry. -/
def meshLink : LinkDesc :=
  ⟨"head", ⟨1, V3.zero, V3.zero, 1, 0, 0, 1, 0, 1⟩,
   [⟨Geometry.mesh "head.stl" none, V3.zero, V3.zero⟩], []⟩

/-- A link with a given inertial roll-pitch-yaw and nothing else of note. -/
def demoLinkRpy (r : V3) : LinkDesc :=
  ⟨"torso", ⟨1, ⟨1, 2, 3⟩, r, 0, 0, 0, 0, 0, 0⟩, [], []⟩

/-- A link with one (mesh) visual entry. -/
def visualDemoLink : LinkDesc :=
  ⟨"torso", ⟨1, V3.zero, V3.zero, 0, 0, 0, 0, 0, 0⟩, [],
   [⟨Geometry.mesh "torso.stl" none, V3.zero, V3.zero⟩]⟩

/-- A revolute joint with a nonzero origin translation. -/
def c9Joint : JointDesc :=
  ⟨"knee", JointType.revolute, "p", "c", ⟨1, 2, 3⟩, V3.zero, ⟨0, 0, 1⟩⟩

/-- Whether a collision/visual entry carries mesh geometry. -/
def hasMeshGeometry (c : GeomEntry) : Prop :=
  match c.geometry with
  | .mesh _ _ => True
  | _ => False

/-- Replace the inertial origin's roll-pitch-yaw of a link. -/
def setInertialRpy (l : LinkDesc) (r : V3) : LinkDesc :=
  { l with inertial := { l.inertial with originRpy := r } }

end

/-! ## Helper lemmas -/

theorem except_bind_error {γ α β : Type} (e : γ) (f : α → Except γ β) :
    (Except.error e >>= f) = Except.error e := rfl

theorem except_bind_ok {γ α β : Type} (a : α) (f : α → Except γ β) :
    (Except.ok a >>= f : Except γ β) = f a := rfl

theorem rotateVec_zero (q : Quat) : rotateVec q V3.zero = V3.zero := by
  simp [rotateVec, quatMul, Quat.conj, V3.zero]

theorem fromBasis_id : fromBasisUnchecked M3.idMat = ⟨1, 0, 0, 0⟩ := by
  have h4 : Real.sqrt 4 = 2 := by
    rw [show (4 : ℝ) = 2 ^ 2 by norm_num, Real.sqrt_sq (by norm_num)]
  norm_num [fromBasisUnchecked, M3.idMat, h4]

theorem axisOf_identity : axisOf ⟨1, 0, 0, 0⟩ = none := by
  norm_num [axisOf, Real.sqrt_zero]

theorem setupJoints_nil (ents : List (Nat × String)) : setupJoints ents [] = Except.ok [] := rfl

theorem setupJoints_cons (ents : List (Nat × String)) (j : JointDesc) (js : List JointDesc) :
    setupJoints ents (j :: js) =
      wireJoint (linkToEntity ents) j >>= fun w =>
        setupJoints ents js >>= fun ws => pure (w :: ws) := by
  unfold setupJoints
  rw [List.mapM_cons]

theorem setupJoints_cons_error (ents : List (Nat × String)) (j : JointDesc)
    (js : List JointDesc) (e : JointPanic)
    (h : wireJoint (linkToEntity ents) j = Except.error e) :
    setupJoints ents (j :: js) = Except.error e := by
  rw [setupJoints_cons, h]
  rfl

theorem wireJoint_parent_missing (lookup : String → Option Nat) (j : JointDesc)
    (h : lookup j.parentLink = none) :
    wireJoint lookup j = Except.error (JointPanic.indexMissingLink j.parentLink) := by
  unfold wireJoint
  rw [h]

theorem wireJoint_child_missing (lookup : String → Option Nat) (j : JointDesc) (pid : Nat)
    (hp : lookup j.parentLink = some pid) (hc : lookup j.childLink = none) :
    wireJoint lookup j = Except.error (JointPanic.indexMissingLink j.childLink) := by
  unfold wireJoint
  rw [hp, hc]

theorem wireJoint_todo (lookup : String → Option Nat) (j : JointDesc) (pid cid : Nat)
    (hp : lookup j.parentLink = some pid) (hc : lookup j.childLink = some cid)
    (hk : j.jointType = JointType.planar ∨ j.jointType = JointType.floating) :
    wireJoint lookup j = Except.error (JointPanic.todoJointType j.name) := by
  unfold wireJoint
  rw [hp, hc]
  rcases hk with hk | hk <;> rw [hk]

theorem setupLinks_nil (eigen : M3 → Evd) : setupLinks [] eigen = Except.ok [] := rfl

theorem setupLinks_cons (l : LinkDesc) (ls : List LinkDesc) (eigen : M3 → Evd) :
    setupLinks (l :: ls) eigen =
      processLink l eigen >>= fun e =>
        setupLinks ls eigen >>= fun es => pure (e :: es) := by
  unfold setupLinks
  rw [List.mapM_cons]

theorem processLink_minimal (n : String) (eigen : M3 → Evd) :
    processLink (minimalLink n) eigen = Except.ok ⟨n, none, none, none, none⟩ := by
  have hmp : massPropertiesOf (minimalLink n).inertial eigen = Except.ok none := by
    simp only [massPropertiesOf]
    rw [if_pos (show inertiaMatrix (minimalLink n).inertial = M3.zeroMat from rfl)]
  have hb : buildLinkEntity (minimalLink n) [] none = ⟨n, none, none, none, none⟩ := by
    simp [buildLinkEntity, minimalLink]
  unfold processLink
  simp only [show (minimalLink n).collision = [] from rfl, List.mapM_nil, pure_bind,
    hmp, except_bind_ok, hb]
  rfl

/-! ## C4: joints referencing unknown links -/

/-- C4 counterexample: a joint whose child link name does not resolve makes
`setup_joints` abort via `HashMap` indexing (`link_to_entity[&joint.child.link]`),
modelled as the panic value `JointPanic.indexMissingLink`; no `UnknownLinkReference`
error value exists anywhere in the code, so the claim fails at this input. -/
theorem c4_counterexample :
    setupJoints [(0, "a")]
      [⟨"j", JointType.fixed, "a", "b", V3.zero, V3.zero, V3.zero⟩] =
      Except.error (JointPanic.indexMissingLink "b") := rfl

/-- C4 amended: for every joint whose parent link (or, the parent resolving, whose
child link) does not resolve in the link map, `setup_joints` panics via `HashMap`
indexing at that joint, aborting the whole pass (no partial scene), instead of
returning an `UnknownLinkReference` error value. -/
theorem c4_amended (ents : List (Nat × String)) (j : JointDesc) (js : List JointDesc) :
    (linkToEntity ents j.parentLink = none →
      setupJoints ents (j :: js) =
        Except.error (JointPanic.indexMissingLink j.parentLink)) ∧
    (∀ pid, linkToEntity ents j.parentLink = some pid →
      linkToEntity ents j.childLink = none →
      setupJoints ents (j :: js) =
        Except.error (JointPanic.indexMissingLink j.childLink)) := by
  constructor
  · intro h
    exact setupJoints_cons_error ents j js _ (wireJoint_parent_missing _ _ h)
  · intro pid hp hc
    exact setupJoints_cons_error ents j js _ (wireJoint_child_missing _ _ pid hp hc)

/-- C4 witness: the amended statement at a concrete robot: one link "a", one joint
referencing the unknown parent "c". -/
theorem c4_witness :
    setupJoints [(0, "a")]
      [⟨"jw", JointType.revolute, "c", "d", V3.zero, V3.zero, V3.zero⟩] =
      Except.error (JointPanic.indexMissingLink "c") :=
  (c4_amended [(0, "a")] ⟨"jw", JointType.revolute, "c", "d", V3.zero, V3.zero, V3.zero⟩ []).1 rfl

/-! ## C5: duplicate link names -/

/-- C5 counterexample: two links named "torso" produce no error whatsoever: the
joint pass succeeds (the map silently overwrites) and the link pass spawns both
entities; no `DuplicateLink` error value exists in the code, so the claim fails. -/
theorem c5_counterexample :
    setupJoints [(0, "torso"), (1, "torso")] [] = Except.ok [] ∧
    setupLinks [minimalLink "torso", minimalLink "torso"] eigenTrivial =
      Except.ok [⟨"torso", none, none, none, none⟩, ⟨"torso", none, none, none, none⟩] := by
  constructor
  · rfl
  · simp only [setupLinks_cons, processLink_minimal, setupLinks_nil, except_bind_ok]
    rfl

/-- C5 amended: duplicate link names are never detected: the joint pass succeeds on
any link sequence (with an empty joint list), and the name-to-entity map resolves a
duplicated name to the most recently inserted entity rather than erroring. -/
theorem c5_amended (ents : List (Nat × String)) (i : Nat) (n : String) :
    setupJoints ents [] = Except.ok [] ∧
    linkToEntity (ents ++ [(i, n)]) n = some i := by
  constructor
  · rfl
  · simp [linkToEntity, List.foldl_append]

/-! ## C6: Planar and Floating joints -/

/-- C6 counterexample: a `Planar` joint between two known links makes `setup_joints`
hit the `todo!()` arm, modelled as the panic value `JointPanic.todoJointType`; no
`UnsupportedJointKind` error value exists in the code, so the claim fails here. -/
theorem c6_counterexample :
    setupJoints [(0, "p"), (1, "c")]
      [⟨"jp", JointType.planar, "p", "c", V3.zero, V3.zero, V3.zero⟩] =
      Except.error (JointPanic.todoJointType "jp") := rfl

/-- C6 amended: for every joint of kind Planar or Floating between links that both
resolve, `setup_joints` panics via `todo!()` at that joint instead of returning an
`UnsupportedJointKind` error value. -/
theorem c6_amended (ents : List (Nat × String)) (j : JointDesc)
    (hkind : j.jointType = JointType.planar ∨ j.jointType = JointType.floating)
    (hp : ∃ pid, linkToEntity ents j.parentLink = some pid)
    (hc : ∃ cid, linkToEntity ents j.childLink = some cid) :
    setupJoints ents [j] = Except.error (JointPanic.todoJointType j.name) := by
  obtain ⟨pid, hp⟩ := hp
  obtain ⟨cid, hc⟩ := hc
  exact setupJoints_cons_error ents j [] _ (wireJoint_todo _ _ pid cid hp hc hkind)

/-- C6 witness: the amended statement at a concrete `Floating` joint between the
known links "p" and "c". -/
theorem c6_witness :
    setupJoints [(0, "p"), (1, "c")]
      [⟨"jf", JointType.floating, "p", "c", V3.zero, V3.zero, V3.zero⟩] =
      Except.error (JointPanic.todoJointType "jf") :=
  c6_amended [(0, "p"), (1, "c")]
    ⟨"jf", JointType.floating, "p", "c", V3.zero, V3.zero, V3.zero⟩
    (Or.inr rfl) ⟨0, rfl⟩ ⟨1, rfl⟩

/-! ## C9: joint constraint anchors -/

/-- C9 counterexample: for a revolute joint with origin translation (1,2,3), the
configured anchor (`local_anchor1`, attached to `body1` = the parent entity 0) is
the translation (1,2,3) in the parent's local frame, while the resolved joint origin
expressed in the child link's local frame is the zero vector (the child frame sits
at the joint origin) - and (1,2,3) is not zero, so the claim fails at this joint. -/
theorem c9_counterexample :
    setupJoints [(0, "p"), (1, "c")] [c9Joint] =
      Except.ok [⟨0, 1, ⟨1, 2, 3⟩, jointOriginRotation V3.zero,
        some ⟨0, ConstraintData.revoluteC ⟨0, 0, 1⟩ ⟨1, 2, 3⟩ V3.zero⟩⟩] ∧
    specAnchorInChildFrame c9Joint = V3.zero ∧
    (⟨1, 2, 3⟩ : V3) ≠ V3.zero := by
  refine ⟨rfl, ?_, ?_⟩
  · have : V3.sub (⟨1, 2, 3⟩ : V3) ⟨1, 2, 3⟩ = V3.zero := by
      simp [V3.sub, V3.zero]
    simp [specAnchorInChildFrame, pointInFrame, c9Joint, this, rotateVec_zero]
  · simp [V3.zero, V3.mk.injEq]

/-- C9 amended: for every successfully mapped joint kind (Revolute, Prismatic,
Fixed, Spherical) the configured anchor is `local_anchor1` - the joint origin
translation expressed in the parent link's local frame (the builder is attached
with `body1` = parent) - while the child-side anchor `local_anchor2` keeps its
builder default, the zero vector (the origin of the child's frame). -/
theorem c9_amended (t r a : V3) :
    setupJoints [(0, "p"), (1, "c")] [⟨"j", JointType.revolute, "p", "c", t, r, a⟩] =
      Except.ok [⟨0, 1, t, jointOriginRotation r,
        some ⟨0, ConstraintData.revoluteC a t V3.zero⟩⟩] ∧
    setupJoints [(0, "p"), (1, "c")] [⟨"j", JointType.prismatic, "p", "c", t, r, a⟩] =
      Except.ok [⟨0, 1, t, jointOriginRotation r,
        some ⟨0, ConstraintData.prismaticC a t V3.zero⟩⟩] ∧
    setupJoints [(0, "p"), (1, "c")] [⟨"j", JointType.fixed, "p", "c", t, r, a⟩] =
      Except.ok [⟨0, 1, t, jointOriginRotation r,
        some ⟨0, ConstraintData.fixedC t (jointOriginRotation r) V3.zero⟩⟩] ∧
    setupJoints [(0, "p"), (1, "c")] [⟨"j", JointType.spherical, "p", "c", t, r, a⟩] =
      Except.ok [⟨0, 1, t, jointOriginRotation r,
        some ⟨0, ConstraintData.sphericalC t V3.zero⟩⟩] :=
  ⟨rfl, rfl, rfl, rfl⟩

/-! ## C7: mesh collision geometry -/

/-- Helper for C7: a collision list containing a mesh entry makes the shape
compilation hit the `todo!()` arm (earlier non-mesh entries always succeed, so the
first mesh entry is always reached). -/
theorem mapM_collision_mesh (cs : List GeomEntry)
    (h : ∃ c ∈ cs, hasMeshGeometry c) :
    cs.mapM compileCollisionEntry = Except.error LinkPanic.meshTodo := by
  induction cs with
  | nil =>
    obtain ⟨c, hc, _⟩ := h
    cases hc
  | cons a rest ih =>
    obtain ⟨c, hc, hm⟩ := h
    rw [List.mapM_cons]
    rcases List.mem_cons.mp hc with rfl | hrest
    · cases hg : c.geometry with
      | mesh f s =>
        have : compileCollisionEntry c = Except.error LinkPanic.meshTodo := by
          unfold compileCollisionEntry compileGeometry
          rw [hg]
          rfl
        rw [this]
        rfl
      | box sz => rw [hasMeshGeometry, hg] at hm; exact hm.elim
      | cylinder r len => rw [hasMeshGeometry, hg] at hm; exact hm.elim
      | sphere r => rw [hasMeshGeometry, hg] at hm; exact hm.elim
      | capsule r len => rw [hasMeshGeometry, hg] at hm; exact hm.elim
    · have hrec := ih ⟨c, hrest, hm⟩
      cases hg : a.geometry with
      | mesh f s =>
        have : compileCollisionEntry a = Except.error LinkPanic.meshTodo := by
          unfold compileCollisionEntry compileGeometry
          rw [hg]
          rfl
        rw [this]
        rfl
      | box sz =>
        have : compileCollisionEntry a =
            Except.ok (a.originXyz, collisionOriginRotation a.originRpy,
              Shape.cuboid (sz.x / 2) (sz.y / 2) (sz.z / 2)) := by
          unfold compileCollisionEntry compileGeometry
          rw [hg]
          rfl
        rw [this, except_bind_ok, hrec]
        rfl
      | cylinder r len =>
        have : compileCollisionEntry a =
            Except.ok (a.originXyz, collisionOriginRotation a.originRpy,
              Shape.cylinder (len / 2) r) := by
          unfold compileCollisionEntry compileGeometry
          rw [hg]
          rfl
        rw [this, except_bind_ok, hrec]
        rfl
      | sphere r =>
        have : compileCollisionEntry a =
            Except.ok (a.originXyz, collisionOriginRotation a.originRpy, Shape.ball r) := by
          unfold compileCollisionEntry compileGeometry
          rw [hg]
          rfl
        rw [this, except_bind_ok, hrec]
        rfl
      | capsule r len =>
        have : compileCollisionEntry a =
            Except.ok (a.originXyz, collisionOriginRotation a.originRpy,
              Shape.capsuleZ (len / 2) r) := by
          unfold compileCollisionEntry compileGeometry
          rw [hg]
          rfl
        rw [this, except_bind_ok, hrec]
        rfl

/-- C7 counterexample: a link whose collision list holds a mesh geometry makes
`setup_links` hit the `todo!()` arm of the collider match, modelled as the panic
value `LinkPanic.meshTodo`; no unsupported-geometry error value exists in the code,
so the claim (an error reported to the caller) fails at this input. -/
theorem c7_counterexample :
    processLink meshLink eigenTrivial = Except.error LinkPanic.meshTodo := rfl

/-- C7 amended: for every link whose collision list contains a mesh geometry
primitive, collider compilation panics via `todo!()` (aborting the whole link pass)
instead of reporting an unsupported-geometry error value to the caller. -/
theorem c7_amended (l : LinkDesc) (eigen : M3 → Evd)
    (h : ∃ c ∈ l.collision, hasMeshGeometry c) :
    processLink l eigen = Except.error LinkPanic.meshTodo := by
  unfold processLink
  rw [mapM_collision_mesh l.collision h]
  rfl

/-- C7 witness: the amended statement at the concrete link `meshLink`. -/
theorem c7_witness :
    processLink meshLink eigenTrivial = Except.error LinkPanic.meshTodo :=
  c7_amended meshLink eigenTrivial
    ⟨⟨Geometry.mesh "head.stl" none, V3.zero, V3.zero⟩, List.mem_singleton.mpr rfl, trivial⟩

/-! ## C10: rigid-body assignment -/

/-- C10 counterexample: a robot link with one visual entry makes `add_link_visuals`
spawn a visual child entity carrying `RigidBody::Dynamic`; that entity is not the
ball (it has no `Name` component at all), so the ball is not the only dynamic rigid
body and the claim fails. -/
theorem c10_counterexample :
    (visualSpawns [visualDemoLink]).map VisualEntity.rigidBody =
      [RigidBodyKind.dynamicBody] := rfl

/-- C10 amended: no robot link entity ever receives `RigidBody::Dynamic`: a link
with positive mass receives `RigidBody::Fixed` together with a collider-mass
component (the plain mass, overwritten by the full mass properties when the inertia
tensor is nonzero), and a link with non-positive mass receives no rigid body; the
ball is dynamic and the field fixed - but additionally every visual entity spawned
by `add_link_visuals` receives `RigidBody::Dynamic`, so the ball is not the only
dynamic body. -/
theorem c10_amended :
    (∀ (l : LinkDesc) (shapes : List (V3 × Quat × Shape)) (mp : Option MassProps),
      (buildLinkEntity l shapes mp).rigidBody =
        if 0 < l.inertial.mass then some RigidBodyKind.fixedBody else none) ∧
    (∀ (l : LinkDesc) (shapes : List (V3 × Quat × Shape)) (mp : Option MassProps),
      (buildLinkEntity l shapes mp).colliderMassProps =
        match mp with
        | some p => some (ColliderMassProps.fullProps p)
        | none =>
          if 0 < l.inertial.mass then some (ColliderMassProps.plainMass l.inertial.mass)
          else none) ∧
    (∀ v : GeomEntry, (spawnVisual v).rigidBody = RigidBodyKind.dynamicBody) ∧
    (∀ fd : FieldDimensions,
      (ballEntity fd).rigidBody = some RigidBodyKind.dynamicBody ∧
      (fieldEntity fd).rigidBody = some RigidBodyKind.fixedBody) := by
  refine ⟨?_, ?_, fun _ => rfl, fun _ => ⟨rfl, rfl⟩⟩
  · intro l shapes mp
    by_cases h : 0 < l.inertial.mass <;> cases mp <;>
      by_cases hs : shapes = [] <;> simp [buildLinkEntity, h, hs]
  · intro l shapes mp
    by_cases h : 0 < l.inertial.mass <;> cases mp <;>
      by_cases hs : shapes = [] <;> simp [buildLinkEntity, h, hs]

/-! ## C8: origin rotation composition -/

/-- C8 counterexample: the inertial origin is never resolved into a rotation at all:
two links identical except for the inertial roll-pitch-yaw ((pi,0,0) versus (0,0,0))
compile to exactly the same entity, even though the fixed composition would resolve
those two rpy triples to different rotations; so the claim that the composition is
applied at inertial call sites like the others fails. -/
theorem c8_counterexample :
    processLink (demoLinkRpy ⟨Real.pi, 0, 0⟩) eigenTrivial =
      processLink (demoLinkRpy V3.zero) eigenTrivial ∧
    collisionOriginRotation ⟨Real.pi, 0, 0⟩ ≠ collisionOriginRotation V3.zero := by
  constructor
  · rfl
  · have h1 : collisionOriginRotation ⟨Real.pi, 0, 0⟩ = ⟨0, 1, 0, 0⟩ := by
      norm_num [collisionOriginRotation, fromEulerZYX, rotX, rotY, rotZ, quatMul,
        Real.cos_pi_div_two, Real.sin_pi_div_two, Real.cos_zero, Real.sin_zero]
    have h2 : collisionOriginRotation V3.zero = ⟨1, 0, 0, 0⟩ := by
      norm_num [collisionOriginRotation, fromEulerZYX, rotX, rotY, rotZ, quatMul,
        V3.zero, Real.cos_zero, Real.sin_zero]
    intro h
    rw [h1, h2] at h
    simp [Quat.mk.injEq] at h

/-- C8 amended: every call site that resolves an origin rotation - collision origins
in `setup_links`, visual origins in `add_link_visuals`, joint origins in
`setup_joints` - uses the one fixed intrinsic composition
R_z(yaw) * R_y(pitch) * R_x(roll); the inertial origin, however, is never resolved
into a rotation: its roll-pitch-yaw is ignored (only its translation is used, as the
center of mass), so link compilation is invariant under changes to it. -/
theorem c8_amended :
    (∀ r : V3, collisionOriginRotation r =
      quatMul (rotZ r.z) (quatMul (rotY r.y) (rotX r.x))) ∧
    (∀ r : V3, visualOriginRotation r = collisionOriginRotation r) ∧
    (∀ r : V3, jointOriginRotation r = collisionOriginRotation r) ∧
    (∀ (l : LinkDesc) (eigen : M3 → Evd) (r r' : V3),
      processLink (setInertialRpy l r) eigen = processLink (setInertialRpy l r') eigen) :=
  ⟨fun _ => rfl, fun _ => rfl, fun _ => rfl, fun _ _ _ _ => rfl⟩

/-! ## C1: non-orthonormal eigenbasis -/

/-- C1 counterexample: a nonzero tensor whose injected eigendecomposition carries a
non-orthonormal eigenvector matrix (here the zero matrix) makes `setup_links` fail
its `assert!` ("rotation matrix not orthogonal"), modelled as the panic value
`LinkPanic.notOrthogonal`; no `InvalidInertiaTensor` error value exists in the code,
so the claim (an error value surfaced to the caller) fails at this input. -/
theorem c1_counterexample :
    massPropertiesOf ⟨2, V3.zero, V3.zero, 1, 0, 0, 2, 0, 3⟩
      (fun _ => ⟨⟨1, 2, 3⟩, M3.zeroMat⟩) = Except.error LinkPanic.notOrthogonal := by
  have hnz : inertiaMatrix ⟨2, V3.zero, V3.zero, 1, 0, 0, 2, 0, 3⟩ ≠ M3.zeroMat := by
    simp [inertiaMatrix, M3.zeroMat]
  have hno : ¬ isOrthogonal M3.zeroMat orthoTol := by
    norm_num [isOrthogonal, entriesWithin, M3.mul, M3.transpose, M3.zeroMat, M3.idMat,
      orthoTol, abs_le]
  simp [massPropertiesOf, hnz, hno]

/-- C1 amended: for every nonzero inertia tensor whose eigendecomposition yields an
eigenvector matrix that is not orthonormal within tolerance 1e-5, the
diagonalization step panics via the assertion "rotation matrix not orthogonal"
rather than surfacing an `InvalidInertiaTensor` error value or silently falling
back. -/
theorem c1_amended (i : Inertial) (eigen : M3 → Evd)
    (hnz : inertiaMatrix i ≠ M3.zeroMat)
    (hno : ¬ isOrthogonal (eigen (inertiaMatrix i)).eigenvectors orthoTol) :
    massPropertiesOf i eigen = Except.error LinkPanic.notOrthogonal := by
  simp [massPropertiesOf, hnz, hno]

/-- C1 witness: the amended statement at a concrete tensor diag(1,1,1) with an
injected zero eigenvector matrix. -/
theorem c1_witness :
    massPropertiesOf ⟨1, V3.zero, V3.zero, 1, 0, 0, 1, 0, 1⟩
      (fun _ => ⟨V3.zero, M3.zeroMat⟩) = Except.error LinkPanic.notOrthogonal :=
  c1_amended ⟨1, V3.zero, V3.zero, 1, 0, 0, 1, 0, 1⟩ (fun _ => ⟨V3.zero, M3.zeroMat⟩)
    (by simp [inertiaMatrix, M3.zeroMat])
    (by norm_num [isOrthogonal, entriesWithin, M3.mul, M3.transpose, M3.zeroMat,
      M3.idMat, orthoTol, abs_le])

/-! ## C2: diagonalizing diag(1,2,3) -/

/-- C2: the code evaluated at the claim's input. For the tensor diag(1,2,3) (any
center of mass, any mass) `SymmetricEigen::new` returns the eigenvalues (1,2,3) with
the exact identity eigenvector matrix (the matrix is already diagonal, so the
tridiagonalization reflects nothing and the QR iteration deflates immediately);
`from_basis_unchecked` then yields the exact identity quaternion, whose `axis()` is
`None`, and `quat.axis().unwrap()` panics - instead of succeeding with
principal inertia {1,2,3} and a near-identity orientation as the claim states. -/
theorem c2_diag123_panics (mass : ℝ) (com rpy : V3) :
    massPropertiesOf ⟨mass, com, rpy, 1, 0, 0, 2, 0, 3⟩ eigenOfDiagonal =
      Except.error LinkPanic.noAxisUnwrap := by
  have hnz : inertiaMatrix ⟨mass, com, rpy, 1, 0, 0, 2, 0, 3⟩ ≠ M3.zeroMat := by
    simp [inertiaMatrix, M3.zeroMat]
  have hortho : isOrthogonal M3.idMat orthoTol := by
    norm_num [isOrthogonal, entriesWithin, M3.mul, M3.transpose, M3.idMat, orthoTol,
      abs_le]
  simp [massPropertiesOf, hnz, eigenOfDiagonal, hortho, fromBasis_id, axisOf_identity]

/-! ## C3: zero tensor yields absent mass properties -/

/-- C3 counterexample: the nonzero tensor diag(4,5,6) produces no mass-properties
record: its (identity-eigenbasis) decomposition leads to the identity quaternion,
whose `axis()` is `None`, so `setup_links` panics at `unwrap()` instead of producing
a record; hence "for every nonzero tensor some mass-properties record is produced"
fails at this input. -/
theorem c3_counterexample :
    massPropertiesOf ⟨1, V3.zero, V3.zero, 4, 0, 0, 5, 0, 6⟩ eigenOfDiagonal =
      Except.error LinkPanic.noAxisUnwrap := by
  have hnz : inertiaMatrix ⟨1, V3.zero, V3.zero, 4, 0, 0, 5, 0, 6⟩ ≠ M3.zeroMat := by
    simp [inertiaMatrix, M3.zeroMat]
  have hortho : isOrthogonal M3.idMat orthoTol := by
    norm_num [isOrthogonal, entriesWithin, M3.mul, M3.transpose, M3.idMat, orthoTol,
      abs_le]
  simp [massPropertiesOf, hnz, eigenOfDiagonal, hortho, fromBasis_id, axisOf_identity]

/-- C3 amended: the diagonalization step returns absent mass properties exactly for
the zero tensor; for a nonzero tensor the result is never absent - it is a
mass-properties record when the checks pass, and a panic (failed orthogonality
assertion or `axis().unwrap()` on a zero rotation) otherwise. -/
theorem c3_amended (i : Inertial) (eigen : M3 → Evd) :
    massPropertiesOf i eigen = Except.ok none ↔ inertiaMatrix i = M3.zeroMat := by
  by_cases h : inertiaMatrix i = M3.zeroMat
  · simp [massPropertiesOf, h]
  · simp only [massPropertiesOf, if_neg h, h, iff_false]
    by_cases ho : isOrthogonal (eigen (inertiaMatrix i)).eigenvectors orthoTol
    · rw [if_pos ho]
      cases hax : axisOf (fromBasisUnchecked (eigen (inertiaMatrix i)).eigenvectors) with
      | none => simp
      | some ax => simp
    · rw [if_neg ho]
      simp

/-- C3 witness: the amended statement applied at a concrete zero-tensor link yields
absent mass properties. -/
theorem c3_witness :
    massPropertiesOf (minimalLink "w").inertial eigenTrivial = Except.ok none :=
  (c3_amended (minimalLink "w").inertial eigenTrivial).mpr rfl
